import Mathlib

/-!
Shallow embedding of the session store, session manager, authentication
engine and conversation-state dispatch of the Mutasiku Telegram bot
(`src/index.js`, `src/lib/sessionUtils.js`, `src/lib/authHandler.js`).

Conventions of the embedding:
* Machine time is a natural number of milliseconds (`Date.now()`).
* A JSON-serializable value is `JsonVal`; a JavaScript object is an
  association list `Obj` from string keys to `Option JsonVal`, where a
  binding to `none` models a key explicitly present with value
  `undefined`.  `JSON.stringify` drops such bindings (`jsonRound`).
* The SQLite table of sessions is a list of rows (`Store`); each manager
  operation from `initializeSessionManager` becomes a pure function on
  the store, with the current time passed explicitly.
-/

/-- A JSON-serializable JavaScript value, as stored in session `data`. -/
inductive JsonVal where
  | num (n : Nat)
  | str (s : String)
  | bool (b : Bool)
  | null
deriving DecidableEq, Repr

/-- A JavaScript object: bindings from keys to values, where a binding to
`none` models a key explicitly set to `undefined`. -/
abbrev Obj : Type := List (String × Option JsonVal)

/-- First binding of key `k` in the object, if any (JavaScript property
lookup on an object with unique keys). -/
def Obj.lookup (o : Obj) (k : String) : Option (Option JsonVal) :=
  match o with
  | [] => none
  | (k', v) :: rest => if k' = k then some v else Obj.lookup rest k

/-- Whether the object has an own property `k` (even if `undefined`). -/
def Obj.hasKey (o : Obj) (k : String) : Bool :=
  (Obj.lookup o k).isSome

/-- Reading `o.k` in JavaScript: a missing key and a key bound to
`undefined` both read as `undefined` (here `none`). -/
def Obj.get (o : Obj) (k : String) : Option JsonVal :=
  match Obj.lookup o k with
  | some (some v) => some v
  | _ => none

/-- Spread merge `{...d, ...u}`: every binding of `u` is present (later
keys win), bindings of `d` whose key does not occur in `u` survive. -/
def Obj.merge (d u : Obj) : Obj :=
  List.filter (fun p => !(Obj.hasKey u p.1)) d ++ u

/-- The effect of `JSON.parse (JSON.stringify o)`: keys bound to
`undefined` are dropped, everything else survives. -/
def jsonRound (o : Obj) : Obj :=
  List.filter (fun p => p.2.isSome) o

/-- An object is well formed (as every actual JavaScript object is) when
its keys are pairwise distinct. -/
def Obj.WF (o : Obj) : Prop :=
  (List.map Prod.fst o).Nodup

/-- JavaScript truthiness of a possibly-undefined value. -/
def jsTruthy : Option JsonVal → Bool
  | none => false
  | some (.num n) => n ≠ 0
  | some (.str s) => s ≠ ""
  | some (.bool b) => b
  | some .null => false

/-- Numeric reading of a possibly-undefined value (the stored
authentication fields are always numbers). -/
def jsNum : Option JsonVal → Nat
  | some (.num n) => n
  | _ => 0

/-- One row of the `sessions` table, with `data` already parsed. -/
structure Session where
  id : String
  chatId : String
  type : String
  state : String
  data : Obj
  expires : Nat
  createdAt : Nat
deriving DecidableEq, Repr

/-- The `sessions` table. -/
abbrev Store : Type := List Session

/-- `createSession(chatId, type, data)`: inserts a fresh row with empty
state and the 15-minute default expiry; the stored `data` is the
JSON-serialized form of the argument. -/
def createSession (chatId type_ : String) (data : Obj) (now : Nat)
    (store : Store) : Session × Store :=
  let sessionId := chatId ++ "_" ++ type_ ++ "_" ++ toString now
  let expires := now + 15 * 60 * 1000
  let row : Session :=
    { id := sessionId, chatId := chatId, type := type_, state := ""
      data := jsonRound data, expires := expires, createdAt := now }
  (row, store ++ [row])

/-- Row filter of the `getSession` SQL query:
`chatId = ? AND expires > ?` plus the optional `AND type = ?`. -/
def rowMatches (chatId : String) (type_ : Option String) (now : Nat)
    (r : Session) : Bool :=
  r.chatId = chatId && now < r.expires &&
    (match type_ with
     | none => true
     | some t => r.type = t)

/-- `ORDER BY createdAt DESC LIMIT 1`: the row with the greatest
`createdAt` among the candidates (first such row on ties). -/
def mostRecent (rows : List Session) : Option Session :=
  List.foldl
    (fun acc r =>
      match acc with
      | none => some r
      | some a => if a.createdAt < r.createdAt then some r else some a)
    none rows

/-- `getSession(chatId, type = null)`: most recent unexpired row for the
chat, optionally restricted to one session type. -/
def getSession (store : Store) (chatId : String) (type_ : Option String)
    (now : Nat) : Option Session :=
  mostRecent (List.filter (rowMatches chatId type_ now) store)

/-- The `updates` argument of `updateSession`: `state` is applied when it
is not `undefined`, `data` is merged when it is truthy. -/
structure Updates where
  state : Option String
  data : Option Obj
deriving DecidableEq, Repr

/-- `SELECT * FROM sessions WHERE id = ?`: first row with the id. -/
def findById (store : Store) (sessionId : String) : Option Session :=
  List.find? (fun r => r.id = sessionId) store

/-- `updateSession(sessionId, updates)`: returns `null` when no row with
the id exists (expiry is not consulted); otherwise merges `data`,
replaces `state` when given, persists the serialized merge and returns
the updated record. -/
def updateSession (sessionId : String) (updates : Updates)
    (store : Store) : Option Session × Store :=
  match findById store sessionId with
  | none => (none, store)
  | some row =>
    let newState :=
      match updates.state with
      | some s => s
      | none => row.state
    let newData :=
      match updates.data with
      | some u => Obj.merge row.data u
      | none => row.data
    let updated : Session := { row with state := newState, data := newData }
    let store' := List.map
      (fun r =>
        if r.id = sessionId then
          { r with state := newState, data := jsonRound newData }
        else r)
      store
    (some updated, store')

/-- `deleteSession(sessionId)`: removes every row with the id, returns
whether any row was removed. -/
def deleteSession (sessionId : String) (store : Store) : Bool × Store :=
  let store' := List.filter (fun r => !(r.id = sessionId : Bool)) store
  (store'.length < store.length, store')

/-- `deleteSessionsByType(chatId, type)`: removes every row for the chat
with the given type, returns whether any row was removed. -/
def deleteSessionsByType (chatId type_ : String) (store : Store) :
    Bool × Store :=
  let store' := List.filter
    (fun r => !(r.chatId = chatId && r.type = type_ : Bool)) store
  (store'.length < store.length, store')

/-- `extendSession(sessionId, minutes)`: sets `expires = now + minutes`
on every row with the id, returns whether any row matched. -/
def extendSession (sessionId : String) (minutes : Nat) (now : Nat)
    (store : Store) : Bool × Store :=
  let store' := List.map
    (fun r =>
      if r.id = sessionId then { r with expires := now + minutes * 60 * 1000 }
      else r)
    store
  ((List.filter (fun r => (r.id = sessionId : Bool)) store).length > 0, store')

/-- `getSessionData(chatId, sessionManager)` from `lib/sessionUtils.js`,
as used by the text-message dispatcher and the flow-start commands: the
session manager built by `initializeSessionManager` provides
`getSession`, so the call resolves to `getSession(chatId)` with no type
restriction. -/
def getSessionData (chatId : String) (now : Nat) (store : Store) :
    Option Session :=
  getSession store chatId none now

/-- The configuration surface read by `lib/authHandler.js`:
`BOT_PASSWORD`, `MAX_LOGIN_ATTEMPTS` (default 3) and
`LOGIN_TIMEOUT_MINUTES` (default 30).  An unset `BOT_PASSWORD`
environment variable reads as the (falsy) empty string. -/
structure AuthConfig where
  botPassword : String
  maxAttempts : Nat
  timeoutMinutes : Nat
deriving DecidableEq, Repr

/-- `isUserAuthenticated(chatId, sessionManager)`: true iff an unexpired
`authenticated`-type session exists whose data marks
`authenticated === true`. -/
def isUserAuthenticated (chatId : String) (now : Nat) (store : Store) :
    Bool :=
  match getSession store chatId (some "authenticated") now with
  | none => false
  | some s => Obj.get s.data "authenticated" = some (.bool true)

/-- `trackFailedAttempt(chatId, sessionManager)`: creates the
`auth_attempts` session with one attempt, or increments the counter and
(re)writes `lastAttempt`; the update binds `blockedUntil` to
`now + timeout` exactly when the new count reaches `maxAttempts` and to
`undefined` otherwise. -/
def trackFailedAttempt (chatId : String) (cfg : AuthConfig) (now : Nat)
    (store : Store) : Store :=
  match getSession store chatId (some "auth_attempts") now with
  | none =>
    (createSession chatId "auth_attempts"
      [("attempts", some (.num 1)), ("lastAttempt", some (.num now))]
      now store).2
  | some session =>
    let attempts := jsNum (Obj.get session.data "attempts") + 1
    (updateSession session.id
      { state := none
        data := some
          [("attempts", some (.num attempts)),
           ("lastAttempt", some (.num now)),
           ("blockedUntil",
             if cfg.maxAttempts ≤ attempts then
               some (.num (now + cfg.timeoutMinutes * 60 * 1000))
             else none)] }
      store).2

/-- `clearFailedAttempts(chatId, sessionManager)`. -/
def clearFailedAttempts (chatId : String) (store : Store) : Store :=
  (deleteSessionsByType chatId "auth_attempts" store).2

/-- Result of `isUserBlocked`: the JavaScript object either carries
`blocked: true` with `remainingMinutes`, or `blocked: false` with
`attemptsLeft` present or absent. -/
structure BlockStatus where
  blocked : Bool
  remainingMinutes : Option Nat
  attemptsLeft : Option Int
deriving DecidableEq, Repr

/-- `isUserBlocked(chatId, sessionManager)`: reads the `auth_attempts`
session; blocked while `attempts >= maxAttempts`, `blockedUntil` is
truthy and still in the future, with
`remainingMinutes = ceil((blockedUntil - now) / 60000)`; deletes the
stale record once `blockedUntil` has passed; reports
`attemptsLeft = maxAttempts - attempts` when an unblocked record exists,
and no `attemptsLeft` at all when no record exists. -/
def isUserBlocked (chatId : String) (cfg : AuthConfig) (now : Nat)
    (store : Store) : BlockStatus × Store :=
  match getSession store chatId (some "auth_attempts") now with
  | none => ({ blocked := false, remainingMinutes := none, attemptsLeft := none }, store)
  | some session =>
    let attempts := jsNum (Obj.get session.data "attempts")
    let blockedUntil := Obj.get session.data "blockedUntil"
    if cfg.maxAttempts ≤ attempts ∧ jsTruthy blockedUntil then
      if now < jsNum blockedUntil then
        ({ blocked := true
           remainingMinutes := some ((jsNum blockedUntil - now + 59999) / 60000)
           attemptsLeft := none }, store)
      else
        ({ blocked := false, remainingMinutes := none, attemptsLeft := none },
         (deleteSessionsByType chatId "auth_attempts" store).2)
    else
      ({ blocked := false, remainingMinutes := none
         attemptsLeft := some ((cfg.maxAttempts : Int) - (attempts : Int)) },
       store)

/-- `createAuthenticatedSession(chatId, sessionManager)`: deletes every
prior `authenticated` session for the chat, creates a fresh one marked
authenticated, then extends its expiry to 24 hours. -/
def createAuthenticatedSession (chatId : String) (now : Nat)
    (store : Store) : Session × Store :=
  let store₁ := (deleteSessionsByType chatId "authenticated" store).2
  let (session, store₂) := createSession chatId "authenticated"
    [("authenticated", some (.bool true)), ("loginTime", some (.num now))]
    now store₁
  (session, (extendSession session.id (24 * 60) now store₂).2)

/-- Outcome of `authenticateUser`: configuration failure, password
mismatch, or success. -/
inductive AuthResult where
  | configError
  | wrongPassword
  | success
deriving DecidableEq, Repr

/-- `authenticateUser(chatId, password, sessionManager)`: fails when
`BOT_PASSWORD` is unset (falsy); on mismatch tracks the failed attempt;
on match clears the `auth_attempts` record and issues a fresh 24-hour
`authenticated` session.  It performs no lockout check of its own. -/
def authenticateUser (chatId password : String) (cfg : AuthConfig)
    (now : Nat) (store : Store) : AuthResult × Store :=
  if cfg.botPassword = "" then (.configError, store)
  else if password ≠ cfg.botPassword then
    (.wrongPassword, trackFailedAttempt chatId cfg now store)
  else
    let store₁ := clearFailedAttempts chatId store
    let store₂ := (createAuthenticatedSession chatId now store₁).2
    (.success, store₂)

/-- `logoutUser(chatId, sessionManager)`: deletes the active
`authenticated` session when its data is marked authenticated; returns
whether a logout happened. -/
def logoutUser (chatId : String) (now : Nat) (store : Store) :
    Bool × Store :=
  match getSession store chatId (some "authenticated") now with
  | none => (false, store)
  | some session =>
    if jsTruthy (Obj.get session.data "authenticated") then
      (true, (deleteSession session.id store).2)
    else (false, store)

/-- User-visible outcome of `handlePasswordInput`. -/
inductive PwOutcome where
  | blocked
  | loginSuccess
  | loginFailure
deriving DecidableEq, Repr

/-- `handlePasswordInput(ctx, session, sessionManager)` from
`src/index.js`, reduced to its session effects: the lockout check runs
before `authenticateUser`; a blocked chat only loses its `login` session;
on success the `login` session is deleted; on failure the `login` session
is additionally deleted once the chat has just become blocked. -/
def handlePasswordInput (chatId password : String) (loginSessionId : String)
    (cfg : AuthConfig) (now : Nat) (store : Store) : PwOutcome × Store :=
  let (blockStatus, store₁) := isUserBlocked chatId cfg now store
  if blockStatus.blocked then
    (.blocked, (deleteSession loginSessionId store₁).2)
  else
    let (result, store₂) := authenticateUser chatId password cfg now store₁
    match result with
    | .success => (.loginSuccess, (deleteSession loginSessionId store₂).2)
    | _ =>
      let (newBlockStatus, store₃) := isUserBlocked chatId cfg now store₂
      if 0 < newBlockStatus.attemptsLeft.getD 0 then
        (.loginFailure, store₃)
      else if newBlockStatus.blocked then
        (.loginFailure, (deleteSession loginSessionId store₃).2)
      else
        (.loginFailure, store₃)

/-- `String.prototype.toUpperCase()` over the characters (ASCII range,
which is all the dispatch tokens use). -/
def toUpperString (s : String) : String :=
  String.mk (List.map Char.toUpper s.data)

/-- Whitespace recognized by `String.prototype.trim()` (the forms that
occur in chat text). -/
def isWsChar (c : Char) : Bool :=
  c = ' ' || c = '\t' || c = '\n' || c = '\r'

/-- `String.prototype.trim()`: strips leading and trailing whitespace. -/
def trimString (s : String) : String :=
  String.mk
    (List.reverse (List.dropWhile isWsChar
      (List.reverse (List.dropWhile isWsChar s.data))))

/-- Outcome of `handleTransferConfirmation`. -/
inductive TcOutcome where
  | proceed
  | cancel
  | reprompt
deriving DecidableEq, Repr

/-- `handleTransferConfirmation(ctx, session, sdk, sessionManager)`:
normalizes the text with `trim().toUpperCase()`; `KONFIRMASI` proceeds to
`completeDANABankTransfer` (the terminal transfer path), `BATAL` deletes
the session, anything else only re-prompts. -/
def handleTransferConfirmation (text : String) (sessionId : String)
    (store : Store) : TcOutcome × Store :=
  let confirmation := toUpperString (trimString text)
  if confirmation = "KONFIRMASI" then
    (.proceed, store)
  else if confirmation = "BATAL" then
    (.cancel, (deleteSession sessionId store).2)
  else
    (.reprompt, store)

/-- The rows of `authenticated` kind belonging to one chat identity. -/
def authRows (c : String) (store : Store) : Store :=
  List.filter (fun r => r.chatId = c && r.type = "authenticated") store

/-- At most one `authenticated`-kind row exists per chat identity (the
engine maintains this strengthening of the at-most-one-valid claim,
since `createAuthenticatedSession` deletes all prior rows first). -/
def authInv (store : Store) : Prop :=
  ∀ c, (authRows c store).length ≤ 1

/-- How many unexpired `authenticated`-kind sessions a chat has. -/
def validAuthCount (c : String) (now : Nat) (store : Store) : Nat :=
  (List.filter
    (fun r => r.chatId = c && r.type = "authenticated" && now < r.expires)
    store).length

/-! ### Lemmas about object lookup, merge and serialization -/

lemma Obj.lookup_nil (k : String) : Obj.lookup [] k = none := rfl

lemma Obj.lookup_cons (p : String × Option JsonVal) (o : Obj) (k : String) :
    Obj.lookup (p :: o) k = if p.1 = k then some p.2 else Obj.lookup o k := rfl

lemma Obj.hasKey_nil (k : String) : Obj.hasKey [] k = false := rfl

lemma Obj.hasKey_cons (p : String × Option JsonVal) (o : Obj) (k : String) :
    Obj.hasKey (p :: o) k = ((p.1 = k : Bool) || Obj.hasKey o k) := by
  unfold Obj.hasKey
  rw [Obj.lookup_cons]
  by_cases h : p.1 = k <;> simp [h]

lemma Obj.lookup_append (o₁ o₂ : Obj) (k : String) :
    Obj.lookup (o₁ ++ o₂) k =
      match Obj.lookup o₁ k with
      | some v => some v
      | none => Obj.lookup o₂ k := by
  induction o₁ with
  | nil => simp [Obj.lookup]
  | cons p rest ih =>
    rw [List.cons_append, Obj.lookup_cons, Obj.lookup_cons]
    by_cases h : p.1 = k
    · simp [h]
    · simp [h, ih]

lemma Obj.lookup_eq_none_of_not_hasKey (o : Obj) (k : String)
    (h : Obj.hasKey o k = false) : Obj.lookup o k = none := by
  unfold Obj.hasKey at h
  cases hl : Obj.lookup o k with
  | none => rfl
  | some v => rw [hl] at h; simp [Option.isSome] at h

lemma Obj.lookup_isSome_of_mem (u : Obj) (q : String × Option JsonVal)
    (hq : q ∈ u) : (Obj.lookup u q.1).isSome = true := by
  induction u with
  | nil => cases hq
  | cons w ws ih =>
    rw [Obj.lookup_cons]
    by_cases hw : w.1 = q.1
    · simp [hw]
    · rcases List.mem_cons.mp hq with h | h
      · subst h; exact absurd rfl hw
      · simp [hw, ih h]

lemma Obj.hasKey_filter_false (o : Obj) (p : String × Option JsonVal → Bool)
    (k : String) (h : Obj.hasKey o k = false) :
    Obj.hasKey (List.filter p o) k = false := by
  induction o with
  | nil => simp [Obj.hasKey, Obj.lookup]
  | cons q rest ih =>
    rw [Obj.hasKey_cons] at h
    rw [List.filter_cons]
    by_cases hq : q.1 = k
    · simp [hq] at h
    · have h' : Obj.hasKey rest k = false := by simpa [hq] using h
      cases hp : p q
      · simpa [hp] using ih h'
      · simpa [hp, Obj.hasKey_cons, hq] using ih h'

lemma Obj.lookup_filterKeys (d u : Obj) (k : String) :
    Obj.lookup (List.filter (fun p => !(Obj.hasKey u p.1)) d) k =
      if Obj.hasKey u k then none else Obj.lookup d k := by
  induction d with
  | nil => simp [Obj.lookup]
  | cons p rest ih =>
    rw [List.filter_cons]
    by_cases hk : p.1 = k
    · subst hk
      cases hu : Obj.hasKey u p.1
      · simp [hu, Obj.lookup_cons, ih]
      · simp [hu, ih]
    · cases hu : Obj.hasKey u p.1 <;>
        simp [hu, Obj.lookup_cons, hk, ih]

lemma Obj.lookup_merge (d u : Obj) (k : String) :
    Obj.lookup (Obj.merge d u) k =
      if Obj.hasKey u k then Obj.lookup u k else Obj.lookup d k := by
  unfold Obj.merge
  rw [Obj.lookup_append, Obj.lookup_filterKeys]
  cases hu : Obj.hasKey u k
  · cases hl : Obj.lookup d k with
    | none => simp [hl, Obj.lookup_eq_none_of_not_hasKey u k hu]
    | some v => simp [hl]
  · cases hl : Obj.lookup u k with
    | none =>
      unfold Obj.hasKey at hu; rw [hl] at hu; simp [Option.isSome] at hu
    | some v => simp [hl]

lemma Obj.lookup_jsonRound (o : Obj) (ho : Obj.WF o) (k : String) :
    Obj.lookup (jsonRound o) k =
      match Obj.lookup o k with
      | some (some v) => some (some v)
      | _ => none := by
  induction o with
  | nil => simp [jsonRound, Obj.lookup]
  | cons p rest ih =>
    have hrest : Obj.WF rest := (List.nodup_cons.mp ho).2
    have hnotin : p.1 ∉ List.map Prod.fst rest := (List.nodup_cons.mp ho).1
    unfold jsonRound at ih ⊢
    rw [List.filter_cons]
    by_cases hk : p.1 = k
    · subst hk
      have habs : Obj.hasKey rest p.1 = false := by
        cases hl : Obj.hasKey rest p.1
        · rfl
        · exfalso
          apply hnotin
          unfold Obj.hasKey at hl
          cases hll : Obj.lookup rest p.1 with
          | none => rw [hll] at hl; simp at hl
          | some v =>
            clear ih hrest ho hnotin hl
            induction rest with
            | nil => simp [Obj.lookup] at hll
            | cons q qs ihq =>
              rw [Obj.lookup_cons] at hll
              by_cases hq : q.1 = p.1
              · simp [hq]
              · rw [if_neg hq] at hll
                simp [ihq hll]
      cases hv : p.2 with
      | none =>
        have hfilter : Obj.hasKey (List.filter (fun q => Option.isSome q.2) rest) p.1 = false :=
          Obj.hasKey_filter_false rest _ p.1 habs
        simp [hv, Obj.lookup_cons,
          Obj.lookup_eq_none_of_not_hasKey _ _ hfilter]
      | some v =>
        simp [hv, Obj.lookup_cons]
    · cases hv : Option.isSome p.2
      · simpa [hv, Obj.lookup_cons, hk] using ih hrest
      · simpa [hv, Obj.lookup_cons, hk] using ih hrest

lemma Obj.get_jsonRound (o : Obj) (ho : Obj.WF o) (k : String) :
    Obj.get (jsonRound o) k = Obj.get o k := by
  unfold Obj.get
  rw [Obj.lookup_jsonRound o ho k]
  cases hl : Obj.lookup o k with
  | none => rfl
  | some v => cases v <;> rfl

lemma Obj.WF_merge (d u : Obj) (hd : Obj.WF d) (hu : Obj.WF u) :
    Obj.WF (Obj.merge d u) := by
  unfold Obj.WF Obj.merge at *
  rw [List.map_append, List.nodup_append]
  refine ⟨?_, hu, ?_⟩
  · exact List.Nodup.sublist (List.Sublist.map Prod.fst (List.filter_sublist d)) hd
  · intro a ha hb
    simp only [List.mem_map] at ha hb
    obtain ⟨p, hp, hpa⟩ := ha
    obtain ⟨q, hq, hqa⟩ := hb
    rw [List.mem_filter] at hp
    have hfalse : Obj.hasKey u p.1 = false := by simpa using hp.2
    have hnone := Obj.lookup_eq_none_of_not_hasKey u p.1 hfalse
    have hsome := Obj.lookup_isSome_of_mem u q hq
    rw [hqa, ← hpa] at hsome
    rw [hnone] at hsome
    simp at hsome


/-! ### Lemmas about the store and the most-recent-active lookup -/

lemma mostRecent_foldl_mem (l : List Session) :
    ∀ (acc : Option Session) (r : Session),
      List.foldl
        (fun acc r =>
          match acc with
          | none => some r
          | some a => if a.createdAt < r.createdAt then some r else some a)
        acc l = some r →
      acc = some r ∨ r ∈ l := by
  induction l with
  | nil => intro acc r h; exact Or.inl h
  | cons a l ih =>
    intro acc r h
    rw [List.foldl_cons] at h
    rcases ih _ r h with h' | h'
    · cases acc with
      | none =>
        dsimp only at h'
        simp only [Option.some.injEq] at h'
        exact Or.inr (h' ▸ List.mem_cons_self a l)
      | some b =>
        dsimp only at h'
        by_cases hc : b.createdAt < a.createdAt
        · rw [if_pos hc] at h'
          simp only [Option.some.injEq] at h'
          exact Or.inr (h' ▸ List.mem_cons_self a l)
        · rw [if_neg hc] at h'
          exact Or.inl h'
    · exact Or.inr (List.mem_cons_of_mem a h')

lemma mostRecent_mem (l : List Session) (r : Session)
    (h : mostRecent l = some r) : r ∈ l := by
  rcases mostRecent_foldl_mem l none r h with h' | h'
  · cases h'
  · exact h'

lemma rowMatches_true_iff (chatId : String) (type_ : Option String)
    (now : Nat) (r : Session) :
    rowMatches chatId type_ now r = true ↔
      r.chatId = chatId ∧ now < r.expires ∧
        (∀ t, type_ = some t → r.type = t) := by
  unfold rowMatches
  cases type_ with
  | none => simp
  | some t => simp [Bool.and_assoc]

/-- Claim C8: the active-session lookup never returns a row once the
current time has reached its `expiresAt`; in particular it returns none
when every (still physically present) row for the chat has expired. -/
theorem getSession_never_returns_expired :
    ∀ (store : Store) (chatId : String) (type_ : Option String) (now : Nat),
      (∀ r : Session, getSession store chatId type_ now = some r →
        now < r.expires ∧ r ∈ store) ∧
      ((∀ r ∈ store, r.chatId = chatId → r.expires ≤ now) →
        getSession store chatId type_ now = none) := by
  intro store chatId type_ now
  constructor
  · intro r h
    have hmem := mostRecent_mem _ r h
    rw [List.mem_filter] at hmem
    have hp := (rowMatches_true_iff chatId type_ now r).mp hmem.2
    exact ⟨hp.2.1, hmem.1⟩
  · intro h
    unfold getSession
    have : List.filter (rowMatches chatId type_ now) store = [] := by
      rw [List.filter_eq_nil_iff]
      intro r hr hmatch
      have hp := (rowMatches_true_iff chatId type_ now r).mp hmatch
      have := h r hr hp.1
      omega
    rw [this]
    rfl

/-- Claim C8 witness: a store holding a single expired row yields an
empty lookup, and a successful lookup certifies an unexpired row. -/
theorem getSession_never_returns_expired_witness :
    getSession
      [{ id := "c_login_0", chatId := "c", type := "login", state := "",
         data := [], expires := 100, createdAt := 0 }] "c" none 100 = none := by
  apply (getSession_never_returns_expired _ "c" none 100).2
  intro r hr hc
  simp at hr
  subst hr
  decide

/-- Claim C2 counterexample: a row whose `expiresAt` has passed (the
active lookup already returns none for it) is still updated successfully
by `updateSession`; the call does not fail with the not-found outcome. -/
theorem updateSession_succeeds_on_expired_row :
    getSession
      [{ id := "c_login_0", chatId := "c", type := "login", state := "old",
         data := [("k", some (.num 1))], expires := 50, createdAt := 0 }]
      "c" none 100 = none ∧
    (updateSession "c_login_0" { state := some "next", data := none }
      [{ id := "c_login_0", chatId := "c", type := "login", state := "old",
         data := [("k", some (.num 1))], expires := 50, createdAt := 0 }]).1 =
      some { id := "c_login_0", chatId := "c", type := "login",
             state := "next", data := [("k", some (.num 1))],
             expires := 50, createdAt := 0 } := by
  constructor
  · rfl
  · rfl

/-- Claim C2 (amended): `updateSession` returns the not-found outcome if
and only if no row with the target id is physically present — expiry is
not consulted; on a present row it merges data, replaces state when
given, persists the serialized result and returns the updated record. -/
theorem updateSession_fails_iff_deleted :
    ∀ (sessionId : String) (updates : Updates) (store : Store),
      ((updateSession sessionId updates store).1 = none ↔
        findById store sessionId = none) ∧
      (∀ row, findById store sessionId = some row →
        (updateSession sessionId updates store).1 = some
          { row with
              state := match updates.state with
                       | some s => s
                       | none => row.state
              data := match updates.data with
                      | some u => Obj.merge row.data u
                      | none => row.data } ∧
        (updateSession sessionId updates store).2 = List.map
          (fun r =>
            if r.id = sessionId then
              { r with
                  state := match updates.state with
                           | some s => s
                           | none => row.state
                  data := jsonRound (match updates.data with
                                     | some u => Obj.merge row.data u
                                     | none => row.data) }
            else r)
          store) := by
  intro sessionId updates store
  constructor
  · unfold updateSession
    cases h : findById store sessionId with
    | none => simp
    | some row => simp
  · intro row h
    unfold updateSession
    rw [h]
    exact ⟨rfl, rfl⟩

/-- Claim C2 witness: on a present row the update succeeds and returns the
record with the new state. -/
theorem updateSession_fails_iff_deleted_witness :
    (updateSession "r1" { state := some "s2", data := none }
      [{ id := "r1", chatId := "c", type := "login", state := "s1",
         data := [], expires := 9, createdAt := 0 }]).1 =
      some { id := "r1", chatId := "c", type := "login", state := "s2",
             data := [], expires := 9, createdAt := 0 } := by
  have h := (updateSession_fails_iff_deleted "r1"
    { state := some "s2", data := none }
    [{ id := "r1", chatId := "c", type := "login", state := "s1",
       data := [], expires := 9, createdAt := 0 }]).2
    { id := "r1", chatId := "c", type := "login", state := "s1",
      data := [], expires := 9, createdAt := 0 } (by decide)
  exact h.1

/-- Claim C1: with the session manager of `initializeSessionManager`,
`getSessionData` performs no kind exclusion: a chat whose only unexpired
session is of kind `authenticated` gets that session back from the
flow-dispatch lookup instead of none. -/
theorem getSessionData_no_authenticated_exclusion :
    ∃ s : Session, s.type = "authenticated" ∧
      getSessionData "chat1" 5 [s] = some s := by
  refine ⟨{ id := "chat1_authenticated_0", chatId := "chat1",
            type := "authenticated", state := "",
            data := [("authenticated", some (.bool true))],
            expires := 1000, createdAt := 0 }, rfl, rfl⟩

/-- Claim C9: the transfer-confirmation handler, after `trim` and
uppercase normalization, proceeds exactly on `KONFIRMASI`, cancels (and
deletes the session) exactly on `BATAL`, and otherwise re-prompts with
the store untouched. -/
theorem handleTransferConfirmation_token_dispatch :
    ∀ (text sessionId : String) (store : Store),
      ((handleTransferConfirmation text sessionId store).1 = .proceed ↔
        toUpperString (trimString text) = "KONFIRMASI") ∧
      ((handleTransferConfirmation text sessionId store).1 = .cancel ↔
        toUpperString (trimString text) = "BATAL") ∧
      (toUpperString (trimString text) = "BATAL" →
        (handleTransferConfirmation text sessionId store).2 =
          (deleteSession sessionId store).2) ∧
      (toUpperString (trimString text) ≠ "KONFIRMASI" → toUpperString (trimString text) ≠ "BATAL" →
        handleTransferConfirmation text sessionId store = (.reprompt, store)) := by
  intro text sessionId store
  unfold handleTransferConfirmation
  by_cases h1 : toUpperString (trimString text) = "KONFIRMASI"
  · simp [h1]
  · by_cases h2 : toUpperString (trimString text) = "BATAL"
    · simp [h1, h2]
    · simp [h1, h2]

/-- Claim C9 witness: a lower-case padded `konfirmasi` proceeds, `batal`
cancels, and unrelated text re-prompts without changing the store. -/
theorem handleTransferConfirmation_token_dispatch_witness :
    (handleTransferConfirmation " Konfirmasi " "sid" []).1 = .proceed ∧
    (handleTransferConfirmation "batal" "sid" []).1 = .cancel ∧
    handleTransferConfirmation "lanjut" "sid" [] = (.reprompt, []) := by
  refine ⟨?_, ?_, ?_⟩
  · exact (handleTransferConfirmation_token_dispatch " Konfirmasi " "sid" []).1.mpr
      (by decide)
  · exact (handleTransferConfirmation_token_dispatch "batal" "sid" []).2.1.mpr
      (by decide)
  · exact (handleTransferConfirmation_token_dispatch "lanjut" "sid" []).2.2.2
      (by decide) (by decide)

lemma Obj.hasKey_eq_false_of_lookup_none (o : Obj) (k : String)
    (h : Obj.lookup o k = none) : Obj.hasKey o k = false := by
  unfold Obj.hasKey
  rw [h]
  rfl

lemma Obj.hasKey_append (o₁ o₂ : Obj) (k : String) :
    Obj.hasKey (o₁ ++ o₂) k = (Obj.hasKey o₁ k || Obj.hasKey o₂ k) := by
  unfold Obj.hasKey
  rw [Obj.lookup_append]
  cases h : Obj.lookup o₁ k <;> simp

lemma updateSession_row_data (sessionId : String) (st : Option String)
    (u : Obj) (store : Store) (row : Session)
    (h : findById store sessionId = some row) :
    ∀ row' ∈ (updateSession sessionId { state := st, data := some u } store).2,
      row'.id = sessionId → row'.data = jsonRound (Obj.merge row.data u) := by
  intro row' hmem hid
  unfold updateSession at hmem
  rw [h] at hmem
  simp only [List.mem_map] at hmem
  obtain ⟨r, _, hr⟩ := hmem
  by_cases hrid : r.id = sessionId
  · rw [if_pos hrid] at hr
    rw [← hr]
  · rw [if_neg hrid] at hr
    rw [← hr] at hid
    exact absurd hid hrid

/-- Claim C7: a data update is a shallow merge, not a replacement: in the
persisted row, every key of the update object reads as its value in the
update, and every key it does not mention reads unchanged from the old
data. -/
theorem updateSession_data_shallow_merge :
    ∀ (sessionId : String) (st : Option String) (u : Obj) (store : Store)
      (row : Session),
      findById store sessionId = some row →
      Obj.WF row.data → Obj.WF u →
      ∀ row' ∈ (updateSession sessionId { state := st, data := some u } store).2,
        row'.id = sessionId →
        (∀ k, Obj.hasKey u k = true → Obj.get row'.data k = Obj.get u k) ∧
        (∀ k, Obj.hasKey u k = false → Obj.get row'.data k = Obj.get row.data k) := by
  intro sessionId st u store row h hwd hwu row' hmem hid
  have hdata := updateSession_row_data sessionId st u store row h row' hmem hid
  rw [hdata]
  have hround := Obj.get_jsonRound (Obj.merge row.data u)
    (Obj.WF_merge row.data u hwd hwu)
  constructor
  · intro k hk
    rw [hround k]
    unfold Obj.get
    rw [Obj.lookup_merge, hk]
    simp
  · intro k hk
    rw [hround k]
    unfold Obj.get
    rw [Obj.lookup_merge, hk]
    simp

/-- Claim C10: an update object that explicitly binds a key to
`undefined` deletes that key from the persisted data: after
serialization the stored row has no entry for it at all. -/
theorem updateSession_undefined_key_deletes :
    ∀ (sessionId : String) (st : Option String) (u : Obj) (k : String)
      (store : Store) (row : Session),
      findById store sessionId = some row →
      Obj.WF u →
      Obj.lookup u k = some none →
      ∀ row' ∈ (updateSession sessionId { state := st, data := some u } store).2,
        row'.id = sessionId →
        Obj.hasKey row'.data k = false := by
  intro sessionId st u k store row h hwu hk row' hmem hid
  have hdata := updateSession_row_data sessionId st u store row h row' hmem hid
  rw [hdata]
  have hku : Obj.hasKey u k = true := by
    unfold Obj.hasKey
    rw [hk]
    rfl
  unfold Obj.merge jsonRound
  rw [List.filter_append, Obj.hasKey_append]
  have h₁ : Obj.hasKey
      (List.filter (fun p => p.2.isSome)
        (List.filter (fun p => !(Obj.hasKey u p.1)) row.data)) k = false := by
    apply Obj.hasKey_filter_false
    apply Obj.hasKey_eq_false_of_lookup_none
    rw [Obj.lookup_filterKeys, if_pos hku]
  have h₂ : Obj.hasKey (List.filter (fun p => p.2.isSome) u) k = false := by
    apply Obj.hasKey_eq_false_of_lookup_none
    have h' := Obj.lookup_jsonRound u hwu k
    rw [hk] at h'
    simpa [jsonRound] using h'
  rw [h₁, h₂]
  rfl

/-- Claim C7 witness: merging `{b:5, c:7}` into stored `{a:1, b:2}`
yields a row where `b` reads the new value and `a` survives unchanged. -/
theorem updateSession_data_shallow_merge_witness :
    Obj.get (Session.data
      { id := "r1", chatId := "c", type := "add_wallet", state := "s",
        data := [("a", some (.num 1)), ("b", some (.num 5)),
                 ("c", some (.num 7))], expires := 9, createdAt := 0 })
      "b" = some (.num 5) ∧
    Obj.get (Session.data
      { id := "r1", chatId := "c", type := "add_wallet", state := "s",
        data := [("a", some (.num 1)), ("b", some (.num 5)),
                 ("c", some (.num 7))], expires := 9, createdAt := 0 })
      "a" = some (.num 1) := by
  have h := updateSession_data_shallow_merge "r1" none
    [("b", some (.num 5)), ("c", some (.num 7))]
    [{ id := "r1", chatId := "c", type := "add_wallet", state := "s",
       data := [("a", some (.num 1)), ("b", some (.num 2))],
       expires := 9, createdAt := 0 }]
    { id := "r1", chatId := "c", type := "add_wallet", state := "s",
      data := [("a", some (.num 1)), ("b", some (.num 2))],
      expires := 9, createdAt := 0 }
    (by decide) (by unfold Obj.WF; decide) (by unfold Obj.WF; decide)
    { id := "r1", chatId := "c", type := "add_wallet", state := "s",
      data := [("a", some (.num 1)), ("b", some (.num 5)),
               ("c", some (.num 7))], expires := 9, createdAt := 0 }
    (by decide) (by decide)
  exact ⟨(h.1 "b" (by decide)).trans (by decide),
         (h.2 "a" (by decide)).trans (by decide)⟩

/-- Claim C10 witness: the attempt tracker's update object binds
`blockedUntil` to `undefined` below the threshold; after the update the
stored row has no `blockedUntil` entry even though it had one before. -/
theorem updateSession_undefined_key_deletes_witness :
    Obj.hasKey (Session.data
      { id := "r2", chatId := "c", type := "auth_attempts", state := "",
        data := [("attempts", some (.num 2)), ("lastAttempt", some (.num 7))],
        expires := 9, createdAt := 0 })
      "blockedUntil" = false := by
  exact updateSession_undefined_key_deletes "r2" none
    [("attempts", some (.num 2)), ("lastAttempt", some (.num 7)),
     ("blockedUntil", none)]
    "blockedUntil"
    [{ id := "r2", chatId := "c", type := "auth_attempts", state := "",
       data := [("attempts", some (.num 1)), ("lastAttempt", some (.num 5)),
                ("blockedUntil", some (.num 99))],
       expires := 9, createdAt := 0 }]
    { id := "r2", chatId := "c", type := "auth_attempts", state := "",
      data := [("attempts", some (.num 1)), ("lastAttempt", some (.num 5)),
               ("blockedUntil", some (.num 99))],
      expires := 9, createdAt := 0 }
    (by decide) (by unfold Obj.WF; decide) (by decide)
    { id := "r2", chatId := "c", type := "auth_attempts", state := "",
      data := [("attempts", some (.num 2)), ("lastAttempt", some (.num 7))],
      expires := 9, createdAt := 0 }
    (by decide) (by decide)

lemma getSession_none_of_no_typed_rows (store : Store) (chatId t : String)
    (now : Nat)
    (h : ∀ r ∈ store, r.chatId = chatId → r.type ≠ t) :
    getSession store chatId (some t) now = none := by
  unfold getSession
  have hnil : List.filter (rowMatches chatId (some t) now) store = [] := by
    rw [List.filter_eq_nil_iff]
    intro r hr hm
    have hp := (rowMatches_true_iff chatId (some t) now r).mp hm
    exact h r hr hp.1 (hp.2.2 t rfl)
  rw [hnil]
  rfl

lemma mem_map_chatId_type (f : Session → Session)
    (hf : ∀ r, (f r).chatId = r.chatId ∧ (f r).type = r.type)
    (l : List Session) (r : Session) (hr : r ∈ List.map f l) :
    ∃ r₀ ∈ l, r.chatId = r₀.chatId ∧ r.type = r₀.type := by
  rw [List.mem_map] at hr
  obtain ⟨r₀, hr₀, hfr⟩ := hr
  exact ⟨r₀, hr₀, by rw [← hfr]; exact (hf r₀).1, by rw [← hfr]; exact (hf r₀).2⟩

lemma authenticateUser_success_no_attempts (c pw : String) (cfg : AuthConfig)
    (now : Nat) (store : Store)
    (hpw : pw = cfg.botPassword) (hne : cfg.botPassword ≠ "") :
    ∀ r ∈ (authenticateUser c pw cfg now store).2,
      r.chatId = c → r.type ≠ "auth_attempts" := by
  intro r hr hc
  unfold authenticateUser at hr
  rw [if_neg hne, if_neg (by rw [hpw]; simp)] at hr
  unfold createAuthenticatedSession createSession extendSession at hr
  simp only at hr
  have hext : ∀ s : Session,
      ((fun r : Session =>
        if r.id = c ++ "_" ++ "authenticated" ++ "_" ++ toString now then
          { r with expires := now + 24 * 60 * 60 * 1000 }
        else r) s).chatId = s.chatId ∧
      ((fun r : Session =>
        if r.id = c ++ "_" ++ "authenticated" ++ "_" ++ toString now then
          { r with expires := now + 24 * 60 * 60 * 1000 }
        else r) s).type = s.type := by
    intro s
    by_cases h : s.id = c ++ "_" ++ "authenticated" ++ "_" ++ toString now <;>
      simp [h]
  obtain ⟨r₀, hr₀, hcid, htype⟩ := mem_map_chatId_type _ hext _ r hr
  rw [htype]
  rcases List.mem_append.mp hr₀ with hbase | hnew
  · intro habs
    simp only [deleteSessionsByType, clearFailedAttempts] at hbase
    rw [List.mem_filter] at hbase
    obtain ⟨hinner, _⟩ := hbase
    rw [List.mem_filter] at hinner
    have hq := hinner.2
    rw [hcid] at hc
    simp [hc, habs] at hq
  · simp only [List.mem_singleton] at hnew
    rw [hnew]
    intro habs
    simp at habs

/-- Claim C3 (amended): `isUserBlocked` behaves on an existing
`auth_attempts` record exactly as claimed (blocked with the ceiling of
the remaining minutes while `blockedUntil` is in the future, stale-record
deletion once it has passed, otherwise `attemptsLeft =
maxAttempts - attempts`), but when no record exists — in particular
immediately after a successful `authenticate` — it returns blocked=false
with no `attemptsLeft` value at all rather than
`attemptsLeft = maxAttempts`. -/
theorem isUserBlocked_spec :
    ∀ (chatId : String) (cfg : AuthConfig) (now : Nat) (store : Store),
      (getSession store chatId (some "auth_attempts") now = none →
        isUserBlocked chatId cfg now store =
          ({ blocked := false, remainingMinutes := none, attemptsLeft := none },
           store)) ∧
      (∀ s, getSession store chatId (some "auth_attempts") now = some s →
        (cfg.maxAttempts ≤ jsNum (Obj.get s.data "attempts") →
         jsTruthy (Obj.get s.data "blockedUntil") = true →
         now < jsNum (Obj.get s.data "blockedUntil") →
         ∃ m, isUserBlocked chatId cfg now store =
            ({ blocked := true, remainingMinutes := some m,
               attemptsLeft := none }, store) ∧
            60000 * (m - 1) < jsNum (Obj.get s.data "blockedUntil") - now ∧
            jsNum (Obj.get s.data "blockedUntil") - now ≤ 60000 * m) ∧
        (cfg.maxAttempts ≤ jsNum (Obj.get s.data "attempts") →
         jsTruthy (Obj.get s.data "blockedUntil") = true →
         jsNum (Obj.get s.data "blockedUntil") ≤ now →
         isUserBlocked chatId cfg now store =
           ({ blocked := false, remainingMinutes := none, attemptsLeft := none },
            (deleteSessionsByType chatId "auth_attempts" store).2)) ∧
        (¬(cfg.maxAttempts ≤ jsNum (Obj.get s.data "attempts") ∧
            jsTruthy (Obj.get s.data "blockedUntil") = true) →
         isUserBlocked chatId cfg now store =
           ({ blocked := false, remainingMinutes := none,
              attemptsLeft := some ((cfg.maxAttempts : Int) -
                (jsNum (Obj.get s.data "attempts") : Int)) }, store))) ∧
      (∀ password, password = cfg.botPassword → cfg.botPassword ≠ "" →
        ∀ now', (isUserBlocked chatId cfg now'
            (authenticateUser chatId password cfg now store).2).1 =
          { blocked := false, remainingMinutes := none, attemptsLeft := none }) := by
  intro chatId cfg now store
  refine ⟨?_, ?_, ?_⟩
  · intro h
    unfold isUserBlocked
    rw [h]
  · intro s hs
    refine ⟨?_, ?_, ?_⟩
    · intro h1 h2 h3
      refine ⟨(jsNum (Obj.get s.data "blockedUntil") - now + 59999) / 60000,
        ?_, ?_, ?_⟩
      · unfold isUserBlocked
        rw [hs]
        dsimp only
        rw [if_pos ⟨h1, h2⟩, if_pos h3]
      · omega
      · omega
    · intro h1 h2 h3
      unfold isUserBlocked
      rw [hs]
      dsimp only
      rw [if_pos ⟨h1, h2⟩, if_neg (by omega)]
    · intro h
      unfold isUserBlocked
      rw [hs]
      dsimp only
      rw [if_neg (by simpa using h)]
  · intro password hpw hne now'
    have hnone : getSession (authenticateUser chatId password cfg now store).2
        chatId (some "auth_attempts") now' = none :=
      getSession_none_of_no_typed_rows _ _ _ _
        (authenticateUser_success_no_attempts chatId password cfg now store hpw hne)
    unfold isUserBlocked
    rw [hnone]

/-- Claim C3 witness: the blocked branch fires on a stored record with
three attempts and a future `blockedUntil` (remaining minutes 30). -/
theorem isUserBlocked_spec_witness :
    isUserBlocked "c" { botPassword := "pw", maxAttempts := 3, timeoutMinutes := 30 }
      13
      [{ id := "c_auth_attempts_10", chatId := "c", type := "auth_attempts",
         state := "",
         data := [("attempts", some (.num 3)), ("lastAttempt", some (.num 12)),
                  ("blockedUntil", some (.num 1800012))],
         expires := 900010, createdAt := 10 }] =
      ({ blocked := true, remainingMinutes := some 30, attemptsLeft := none },
       [{ id := "c_auth_attempts_10", chatId := "c", type := "auth_attempts",
          state := "",
          data := [("attempts", some (.num 3)), ("lastAttempt", some (.num 12)),
                   ("blockedUntil", some (.num 1800012))],
          expires := 900010, createdAt := 10 }]) := by
  have h := ((isUserBlocked_spec "c"
      { botPassword := "pw", maxAttempts := 3, timeoutMinutes := 30 } 13
      [{ id := "c_auth_attempts_10", chatId := "c", type := "auth_attempts",
         state := "",
         data := [("attempts", some (.num 3)), ("lastAttempt", some (.num 12)),
                  ("blockedUntil", some (.num 1800012))],
         expires := 900010, createdAt := 10 }]).2.1
      { id := "c_auth_attempts_10", chatId := "c", type := "auth_attempts",
        state := "",
        data := [("attempts", some (.num 3)), ("lastAttempt", some (.num 12)),
                 ("blockedUntil", some (.num 1800012))],
        expires := 900010, createdAt := 10 }
      (by decide)).1 (by decide) (by decide) (by decide)
  obtain ⟨m, heq, hlo, hhi⟩ := h
  have hm : m = 30 := by
    simp [Obj.get, Obj.lookup, jsNum] at hlo hhi
    omega
  rw [hm] at heq
  exact heq

/-- Claim C3 counterexample: immediately after a successful authenticate
(which removes the `auth_attempts` record), `isBlocked` reports
blocked=false with NO `attemptsLeft` value — not
`attemptsLeft = maxAttempts` (= 3) as the claim states. -/
theorem isUserBlocked_after_auth_counterexample :
    (isUserBlocked "c" { botPassword := "pw", maxAttempts := 3, timeoutMinutes := 30 }
      15
      (authenticateUser "c" "pw"
        { botPassword := "pw", maxAttempts := 3, timeoutMinutes := 30 }
        14 []).2).1.attemptsLeft = none ∧
    (none : Option Int) ≠ some (3 : Int) := by
  exact ⟨rfl, by decide⟩

lemma isUserBlocked_blocked_case (chatId : String) (cfg : AuthConfig)
    (now : Nat) (store : Store) (s : Session)
    (hs : getSession store chatId (some "auth_attempts") now = some s)
    (h1 : cfg.maxAttempts ≤ jsNum (Obj.get s.data "attempts"))
    (h2 : jsTruthy (Obj.get s.data "blockedUntil") = true)
    (h3 : now < jsNum (Obj.get s.data "blockedUntil")) :
    isUserBlocked chatId cfg now store =
      ({ blocked := true
         remainingMinutes :=
           some ((jsNum (Obj.get s.data "blockedUntil") - now + 59999) / 60000)
         attemptsLeft := none }, store) := by
  unfold isUserBlocked
  rw [hs]
  dsimp only
  rw [if_pos ⟨h1, h2⟩, if_pos h3]

lemma filter_delete_other (store : Store) (loginId t : String)
    (ht : t ≠ "login")
    (hid : ∀ r ∈ store, r.id = loginId → r.type = "login") :
    List.filter (fun r => (r.type = t : Bool)) (deleteSession loginId store).2 =
      List.filter (fun r => (r.type = t : Bool)) store := by
  unfold deleteSession
  dsimp only
  rw [List.filter_filter]
  apply List.filter_congr
  intro r hr
  by_cases hp : r.type = t
  · have hne : r.id ≠ loginId := by
      intro h
      have hlogin := hid r hr h
      rw [hp] at hlogin
      exact ht hlogin
    simp [hp, hne]
  · simp [hp]

/-- Claim C4: a password input arriving while the chat is inside an open
lockout window (attempts at the threshold, `blockedUntil` in the future)
is rejected before `authenticateUser` runs — even with the correct
password: no `authenticated` session is created and the `auth_attempts`
lockout record is untouched (only the chat's `login` session is
removed). -/
theorem handlePasswordInput_blocked_rejects :
    ∀ (chatId password loginId : String) (cfg : AuthConfig) (now : Nat)
      (store : Store) (s : Session),
      getSession store chatId (some "auth_attempts") now = some s →
      cfg.maxAttempts ≤ jsNum (Obj.get s.data "attempts") →
      jsTruthy (Obj.get s.data "blockedUntil") = true →
      now < jsNum (Obj.get s.data "blockedUntil") →
      (∀ r ∈ store, r.id = loginId → r.type = "login") →
      (handlePasswordInput chatId password loginId cfg now store).1 =
        .blocked ∧
      List.filter (fun r => (r.type = "authenticated" : Bool))
        (handlePasswordInput chatId password loginId cfg now store).2 =
        List.filter (fun r => (r.type = "authenticated" : Bool)) store ∧
      List.filter (fun r => (r.type = "auth_attempts" : Bool))
        (handlePasswordInput chatId password loginId cfg now store).2 =
        List.filter (fun r => (r.type = "auth_attempts" : Bool)) store := by
  intro chatId password loginId cfg now store s hs h1 h2 h3 hid
  have hb := isUserBlocked_blocked_case chatId cfg now store s hs h1 h2 h3
  unfold handlePasswordInput
  rw [hb]
  dsimp only
  refine ⟨rfl, ?_, ?_⟩
  · exact filter_delete_other store loginId "authenticated" (by decide) hid
  · exact filter_delete_other store loginId "auth_attempts" (by decide) hid

/-- Claim C4 witness: with the correct password `pw` supplied during an
open lockout, the handler reports blocked and both the lockout record
and the set of authenticated sessions are unchanged. -/
theorem handlePasswordInput_blocked_rejects_witness :
    (handlePasswordInput "c" "pw" "c_login_11"
        { botPassword := "pw", maxAttempts := 3, timeoutMinutes := 30 } 13
        [{ id := "c_auth_attempts_10", chatId := "c", type := "auth_attempts",
           state := "",
           data := [("attempts", some (.num 3)),
                    ("blockedUntil", some (.num 1800012))],
           expires := 900010, createdAt := 10 },
         { id := "c_login_11", chatId := "c", type := "login",
           state := "awaiting_password", data := [],
           expires := 900011, createdAt := 11 }]).1 = .blocked ∧
    List.filter (fun r => (r.type = "authenticated" : Bool))
      (handlePasswordInput "c" "pw" "c_login_11"
        { botPassword := "pw", maxAttempts := 3, timeoutMinutes := 30 } 13
        [{ id := "c_auth_attempts_10", chatId := "c", type := "auth_attempts",
           state := "",
           data := [("attempts", some (.num 3)),
                    ("blockedUntil", some (.num 1800012))],
           expires := 900010, createdAt := 10 },
         { id := "c_login_11", chatId := "c", type := "login",
           state := "awaiting_password", data := [],
           expires := 900011, createdAt := 11 }]).2 =
      List.filter (fun r => (r.type = "authenticated" : Bool))
        [{ id := "c_auth_attempts_10", chatId := "c", type := "auth_attempts",
           state := "",
           data := [("attempts", some (.num 3)),
                    ("blockedUntil", some (.num 1800012))],
           expires := 900010, createdAt := 10 },
         { id := "c_login_11", chatId := "c", type := "login",
           state := "awaiting_password", data := [],
           expires := 900011, createdAt := 11 }] ∧
    List.filter (fun r => (r.type = "auth_attempts" : Bool))
      (handlePasswordInput "c" "pw" "c_login_11"
        { botPassword := "pw", maxAttempts := 3, timeoutMinutes := 30 } 13
        [{ id := "c_auth_attempts_10", chatId := "c", type := "auth_attempts",
           state := "",
           data := [("attempts", some (.num 3)),
                    ("blockedUntil", some (.num 1800012))],
           expires := 900010, createdAt := 10 },
         { id := "c_login_11", chatId := "c", type := "login",
           state := "awaiting_password", data := [],
           expires := 900011, createdAt := 11 }]).2 =
      List.filter (fun r => (r.type = "auth_attempts" : Bool))
        [{ id := "c_auth_attempts_10", chatId := "c", type := "auth_attempts",
           state := "",
           data := [("attempts", some (.num 3)),
                    ("blockedUntil", some (.num 1800012))],
           expires := 900010, createdAt := 10 },
         { id := "c_login_11", chatId := "c", type := "login",
           state := "awaiting_password", data := [],
           expires := 900011, createdAt := 11 }] := by
  exact handlePasswordInput_blocked_rejects "c" "pw" "c_login_11"
    { botPassword := "pw", maxAttempts := 3, timeoutMinutes := 30 } 13
    [{ id := "c_auth_attempts_10", chatId := "c", type := "auth_attempts",
       state := "",
       data := [("attempts", some (.num 3)),
                ("blockedUntil", some (.num 1800012))],
       expires := 900010, createdAt := 10 },
     { id := "c_login_11", chatId := "c", type := "login",
       state := "awaiting_password", data := [],
       expires := 900011, createdAt := 11 }]
    { id := "c_auth_attempts_10", chatId := "c", type := "auth_attempts",
      state := "",
      data := [("attempts", some (.num 3)),
               ("blockedUntil", some (.num 1800012))],
      expires := 900010, createdAt := 10 }
    (by decide) (by decide) (by decide) (by decide) (by decide)

lemma getSession_singleton (c t id st : String) (d : Obj) (exp ca now : Nat)
    (h : now < exp) :
    getSession [{ id := id, chatId := c, type := t, state := st, data := d,
                  expires := exp, createdAt := ca }] c (some t) now =
      some { id := id, chatId := c, type := t, state := st, data := d,
             expires := exp, createdAt := ca } := by
  unfold getSession
  have hp : rowMatches c (some t) now
      { id := id, chatId := c, type := t, state := st, data := d,
        expires := exp, createdAt := ca } = true :=
    (rowMatches_true_iff c (some t) now _).mpr
      ⟨rfl, h, fun t' ht' => Option.some.inj ht'⟩
  rw [List.filter_cons, if_pos hp, List.filter_nil]
  rfl

lemma findById_singleton (r : Session) : findById [r] r.id = some r := by
  unfold findById
  rw [List.find?_cons_of_pos _ (by simp)]

lemma authenticateUser_wrong (c w : String) (cfg : AuthConfig) (now : Nat)
    (store : Store) (hne : cfg.botPassword ≠ "") (hw : w ≠ cfg.botPassword) :
    authenticateUser c w cfg now store =
      (.wrongPassword, trackFailedAttempt c cfg now store) := by
  unfold authenticateUser
  rw [if_neg hne, if_pos hw]

lemma trackFailedAttempt_fresh (c : String) (cfg : AuthConfig) (now : Nat)
    (store : Store)
    (h : getSession store c (some "auth_attempts") now = none) :
    trackFailedAttempt c cfg now store =
      store ++
        [{ id := c ++ "_" ++ "auth_attempts" ++ "_" ++ toString now,
           chatId := c, type := "auth_attempts", state := "",
           data := [("attempts", some (.num 1)),
                    ("lastAttempt", some (.num now))],
           expires := now + 15 * 60 * 1000, createdAt := now }] := by
  unfold trackFailedAttempt
  rw [h]
  rfl

lemma trackFailedAttempt_existing (c : String) (cfg : AuthConfig) (now : Nat)
    (id st : String) (d : Obj) (exp ca : Nat) (h : now < exp) :
    trackFailedAttempt c cfg now
      [{ id := id, chatId := c, type := "auth_attempts", state := st,
         data := d, expires := exp, createdAt := ca }] =
      [{ id := id, chatId := c, type := "auth_attempts", state := st,
         data := jsonRound (Obj.merge d
           [("attempts", some (.num (jsNum (Obj.get d "attempts") + 1))),
            ("lastAttempt", some (.num now)),
            ("blockedUntil",
              if cfg.maxAttempts ≤ jsNum (Obj.get d "attempts") + 1 then
                some (.num (now + cfg.timeoutMinutes * 60 * 1000))
              else none)]),
         expires := exp, createdAt := ca }] := by
  unfold trackFailedAttempt
  rw [getSession_singleton c "auth_attempts" id st d exp ca now h]
  dsimp only
  unfold updateSession
  have hfind := findById_singleton
    { id := id, chatId := c, type := "auth_attempts", state := st,
      data := d, expires := exp, createdAt := ca }
  dsimp only at hfind
  rw [hfind]
  dsimp only
  rw [List.map_cons, List.map_nil, if_pos rfl]

/-- Claim C6: with `maxAttempts = 3`, a wrong-password authenticate on a
chat with no `auth_attempts` session creates that session with one
attempt; and three consecutive wrong passwords (within the session's
15-minute lifetime) leave a single `auth_attempts` record with
`attempts = 3` whose third failure stamped
`blockedUntil = now + lockoutWindow`, so `isBlocked` then reports
blocked=true. -/
theorem three_wrong_passwords_block :
    (∀ (c w : String) (cfg : AuthConfig) (now : Nat) (store : Store),
      cfg.botPassword ≠ "" → w ≠ cfg.botPassword →
      getSession store c (some "auth_attempts") now = none →
      (authenticateUser c w cfg now store).2 =
        store ++
          [{ id := c ++ "_" ++ "auth_attempts" ++ "_" ++ toString now,
             chatId := c, type := "auth_attempts", state := "",
             data := [("attempts", some (.num 1)),
                      ("lastAttempt", some (.num now))],
             expires := now + 15 * 60 * 1000, createdAt := now }]) ∧
    (∀ (c w : String) (cfg : AuthConfig) (t1 t2 t3 t4 : Nat),
      cfg.maxAttempts = 3 → cfg.botPassword ≠ "" → w ≠ cfg.botPassword →
      0 < cfg.timeoutMinutes →
      t2 < t1 + 900000 → t3 < t1 + 900000 → t4 < t1 + 900000 →
      t4 < t3 + cfg.timeoutMinutes * 60000 →
      (authenticateUser c w cfg t3
        (authenticateUser c w cfg t2
          (authenticateUser c w cfg t1 []).2).2).2 =
        [{ id := c ++ "_" ++ "auth_attempts" ++ "_" ++ toString t1,
           chatId := c, type := "auth_attempts", state := "",
           data := [("attempts", some (.num 3)),
                    ("lastAttempt", some (.num t3)),
                    ("blockedUntil",
                      some (.num (t3 + cfg.timeoutMinutes * 60 * 1000)))],
           expires := t1 + 15 * 60 * 1000, createdAt := t1 }] ∧
      (isUserBlocked c cfg t4
        (authenticateUser c w cfg t3
          (authenticateUser c w cfg t2
            (authenticateUser c w cfg t1 []).2).2).2).1.blocked = true) := by
  refine ⟨?_, ?_⟩
  · intro c w cfg now store hne hw h
    rw [authenticateUser_wrong c w cfg now store hne hw]
    exact trackFailedAttempt_fresh c cfg now store h
  · intro c w cfg t1 t2 t3 t4 hmax hne hw hto ht2 ht3 ht4 hbu
    have e1 : (authenticateUser c w cfg t1 []).2 =
        [{ id := c ++ "_" ++ "auth_attempts" ++ "_" ++ toString t1,
           chatId := c, type := "auth_attempts", state := "",
           data := [("attempts", some (.num 1)),
                    ("lastAttempt", some (.num t1))],
           expires := t1 + 15 * 60 * 1000, createdAt := t1 }] := by
      rw [authenticateUser_wrong c w cfg t1 [] hne hw,
        trackFailedAttempt_fresh c cfg t1 [] rfl]
      rfl
    have e2 : (authenticateUser c w cfg t2
        (authenticateUser c w cfg t1 []).2).2 =
        [{ id := c ++ "_" ++ "auth_attempts" ++ "_" ++ toString t1,
           chatId := c, type := "auth_attempts", state := "",
           data := [("attempts", some (.num 2)),
                    ("lastAttempt", some (.num t2))],
           expires := t1 + 15 * 60 * 1000, createdAt := t1 }] := by
      rw [e1, authenticateUser_wrong c w cfg t2 _ hne hw,
        trackFailedAttempt_existing c cfg t2 _ "" _ _ t1 (by omega)]
      rw [hmax]
      simp [Obj.merge, jsonRound, Obj.hasKey, Obj.lookup, Obj.get, jsNum]
    have e3 : (authenticateUser c w cfg t3
        (authenticateUser c w cfg t2
          (authenticateUser c w cfg t1 []).2).2).2 =
        [{ id := c ++ "_" ++ "auth_attempts" ++ "_" ++ toString t1,
           chatId := c, type := "auth_attempts", state := "",
           data := [("attempts", some (.num 3)),
                    ("lastAttempt", some (.num t3)),
                    ("blockedUntil",
                      some (.num (t3 + cfg.timeoutMinutes * 60 * 1000)))],
           expires := t1 + 15 * 60 * 1000, createdAt := t1 }] := by
      rw [e2, authenticateUser_wrong c w cfg t3 _ hne hw,
        trackFailedAttempt_existing c cfg t3 _ "" _ _ t1 (by omega)]
      rw [hmax]
      simp [Obj.merge, jsonRound, Obj.hasKey, Obj.lookup, Obj.get, jsNum]
    refine ⟨e3, ?_⟩
    rw [e3]
    have hblock := isUserBlocked_blocked_case c cfg t4
      [{ id := c ++ "_" ++ "auth_attempts" ++ "_" ++ toString t1,
         chatId := c, type := "auth_attempts", state := "",
         data := [("attempts", some (.num 3)),
                  ("lastAttempt", some (.num t3)),
                  ("blockedUntil",
                    some (.num (t3 + cfg.timeoutMinutes * 60 * 1000)))],
         expires := t1 + 15 * 60 * 1000, createdAt := t1 }]
      { id := c ++ "_" ++ "auth_attempts" ++ "_" ++ toString t1,
        chatId := c, type := "auth_attempts", state := "",
        data := [("attempts", some (.num 3)),
                 ("lastAttempt", some (.num t3)),
                 ("blockedUntil",
                   some (.num (t3 + cfg.timeoutMinutes * 60 * 1000)))],
        expires := t1 + 15 * 60 * 1000, createdAt := t1 }
      (getSession_singleton c "auth_attempts" _ "" _ _ t1 t4 (by omega))
      (by rw [hmax]; simp [Obj.get, Obj.lookup, jsNum])
      (by simp [Obj.get, Obj.lookup, jsTruthy]; omega)
      (by simp [Obj.get, Obj.lookup, jsNum]; omega)
    rw [hblock]

/-- Claim C6 witness: chat `c`, wrong password `x` against secret `pw`,
three failures at times 10, 11, 12 produce a single blocked record and
`isBlocked` reports blocked at time 13. -/
theorem three_wrong_passwords_block_witness :
    (authenticateUser "c" "x" { botPassword := "pw", maxAttempts := 3, timeoutMinutes := 30 } 12
      (authenticateUser "c" "x" { botPassword := "pw", maxAttempts := 3, timeoutMinutes := 30 } 11
        (authenticateUser "c" "x" { botPassword := "pw", maxAttempts := 3, timeoutMinutes := 30 } 10 []).2).2).2 =
      [{ id := "c" ++ "_" ++ "auth_attempts" ++ "_" ++ toString 10,
         chatId := "c", type := "auth_attempts", state := "",
         data := [("attempts", some (.num 3)),
                  ("lastAttempt", some (.num 12)),
                  ("blockedUntil", some (.num (12 + 30 * 60 * 1000)))],
         expires := 10 + 15 * 60 * 1000, createdAt := 10 }] ∧
    (isUserBlocked "c" { botPassword := "pw", maxAttempts := 3, timeoutMinutes := 30 } 13
      (authenticateUser "c" "x" { botPassword := "pw", maxAttempts := 3, timeoutMinutes := 30 } 12
        (authenticateUser "c" "x" { botPassword := "pw", maxAttempts := 3, timeoutMinutes := 30 } 11
          (authenticateUser "c" "x" { botPassword := "pw", maxAttempts := 3, timeoutMinutes := 30 } 10 []).2).2).2).1.blocked
      = true := by
  exact three_wrong_passwords_block.2 "c" "x"
    { botPassword := "pw", maxAttempts := 3, timeoutMinutes := 30 }
    10 11 12 13 rfl (by decide) (by decide) (by decide)
    (by decide) (by decide) (by decide) (by decide)

/-! ### Preservation of the single-authenticated-session invariant -/

lemma length_filter_le_of_imp {α : Type} (p q : α → Bool) (l : List α)
    (h : ∀ a, p a = true → q a = true) :
    (List.filter p l).length ≤ (List.filter q l).length :=
  (List.monotone_filter_right l h).length_le

lemma filter_map_comm (f : Session → Session) (p : Session → Bool)
    (h : ∀ r, p (f r) = p r) (l : List Session) :
    List.filter p (List.map f l) = List.map f (List.filter p l) := by
  induction l with
  | nil => rfl
  | cons a l ih =>
    rw [List.map_cons, List.filter_cons, List.filter_cons, h a]
    cases hp : p a
    · simpa using ih
    · simpa using ih

lemma authInv_filter (q : Session → Bool) (store : Store)
    (h : authInv store) : authInv (List.filter q store) := by
  intro c
  unfold authRows
  rw [List.filter_filter]
  exact Nat.le_trans
    (length_filter_le_of_imp _ _ store
      (by intro a ha; rw [Bool.and_eq_true] at ha; exact ha.1))
    (h c)

lemma authInv_map (f : Session → Session)
    (hf : ∀ r, (f r).chatId = r.chatId ∧ (f r).type = r.type)
    (store : Store) (h : authInv store) : authInv (List.map f store) := by
  intro c
  unfold authRows
  rw [filter_map_comm f _ (by
    intro r
    have h1 := (hf r).1
    have h2 := (hf r).2
    simp [h1, h2]) store]
  rw [List.length_map]
  exact h c

lemma authInv_append_nonauth (store : Store) (row : Session)
    (hrow : row.type ≠ "authenticated") (h : authInv store) :
    authInv (store ++ [row]) := by
  intro c
  unfold authRows
  rw [List.filter_append]
  have : List.filter (fun r => r.chatId = c && r.type = "authenticated") [row]
      = [] := by
    rw [List.filter_eq_nil_iff]
    intro r hr
    rw [List.mem_singleton] at hr
    subst hr
    simp [hrow]
  rw [this, List.append_nil]
  exact h c

lemma authInv_createSession (c ty : String) (d : Obj) (now : Nat)
    (store : Store) (hty : ty ≠ "authenticated") (h : authInv store) :
    authInv (createSession c ty d now store).2 := by
  unfold createSession
  exact authInv_append_nonauth store _ hty h

lemma extendSession_map_preserves (sid : String) (minutes now : Nat) :
    ∀ r : Session,
      ((fun r : Session =>
        if r.id = sid then { r with expires := now + minutes * 60 * 1000 }
        else r) r).chatId = r.chatId ∧
      ((fun r : Session =>
        if r.id = sid then { r with expires := now + minutes * 60 * 1000 }
        else r) r).type = r.type := by
  intro r
  by_cases hr : r.id = sid <;> simp [hr]

lemma authInv_updateSession (sid : String) (u : Updates) (store : Store)
    (h : authInv store) : authInv (updateSession sid u store).2 := by
  unfold updateSession
  cases hf : findById store sid with
  | none => exact h
  | some row =>
    dsimp only
    apply authInv_map _ _ _ h
    intro r
    by_cases hr : r.id = sid <;> simp [hr]

lemma authInv_deleteSession (sid : String) (store : Store)
    (h : authInv store) : authInv (deleteSession sid store).2 :=
  authInv_filter _ store h

lemma authInv_deleteSessionsByType (c ty : String) (store : Store)
    (h : authInv store) : authInv (deleteSessionsByType c ty store).2 :=
  authInv_filter _ store h

lemma authInv_extendSession (sid : String) (m now : Nat) (store : Store)
    (h : authInv store) : authInv (extendSession sid m now store).2 :=
  authInv_map _ (extendSession_map_preserves sid m now) store h

lemma authInv_trackFailedAttempt (c : String) (cfg : AuthConfig) (now : Nat)
    (store : Store) (h : authInv store) :
    authInv (trackFailedAttempt c cfg now store) := by
  unfold trackFailedAttempt
  cases hg : getSession store c (some "auth_attempts") now with
  | none => exact authInv_createSession c "auth_attempts" _ now store (by decide) h
  | some s => exact authInv_updateSession s.id _ store h

lemma authRows_createAuthenticatedSession (c : String) (now : Nat)
    (store : Store) :
    authRows c (createAuthenticatedSession c now store).2 =
      [{ id := c ++ "_" ++ "authenticated" ++ "_" ++ toString now,
         chatId := c, type := "authenticated", state := "",
         data := [("authenticated", some (.bool true)),
                  ("loginTime", some (.num now))],
         expires := now + 24 * 60 * 60 * 1000, createdAt := now }] := by
  unfold createAuthenticatedSession createSession extendSession
  dsimp only
  unfold authRows
  rw [filter_map_comm
    (fun r : Session =>
      if r.id = c ++ "_" ++ "authenticated" ++ "_" ++ toString now then
        { r with expires := now + 24 * 60 * 60 * 1000 }
      else r)
    (fun r => r.chatId = c && r.type = "authenticated")
    (by
      intro r
      by_cases hr : r.id = c ++ "_" ++ "authenticated" ++ "_" ++ toString now <;>
        simp [hr])]
  rw [List.filter_append]
  have hbase : List.filter
      (fun r : Session => r.chatId = c && r.type = "authenticated")
      (deleteSessionsByType c "authenticated" store).2 = [] := by
    unfold deleteSessionsByType
    dsimp only
    rw [List.filter_filter, List.filter_eq_nil_iff]
    intro r hr
    simp
  rw [hbase, List.nil_append, List.filter_cons, if_pos (by simp),
    List.filter_nil, List.map_cons, List.map_nil, if_pos rfl]
  simp [jsonRound]

lemma authInv_createAuthenticatedSession (c : String) (now : Nat)
    (store : Store) (h : authInv store) :
    authInv (createAuthenticatedSession c now store).2 := by
  intro c'
  by_cases hc : c' = c
  · subst hc
    rw [authRows_createAuthenticatedSession]
    simp
  · unfold createAuthenticatedSession createSession extendSession
    dsimp only
    unfold authRows
    rw [filter_map_comm
      (fun r : Session =>
        if r.id = c ++ "_" ++ "authenticated" ++ "_" ++ toString now then
          { r with expires := now + 24 * 60 * 60 * 1000 }
        else r)
      (fun r => r.chatId = c' && r.type = "authenticated")
      (by
        intro r
        by_cases hr : r.id = c ++ "_" ++ "authenticated" ++ "_" ++ toString now <;>
          simp [hr])]
    rw [List.filter_append, List.length_map, List.length_append]
    have hnew : List.filter
        (fun r : Session => r.chatId = c' && r.type = "authenticated")
        [{ id := c ++ "_" ++ "authenticated" ++ "_" ++ toString now,
           chatId := c, type := "authenticated", state := "",
           data := jsonRound [("authenticated", some (.bool true)),
                    ("loginTime", some (.num now))],
           expires := now + 15 * 60 * 1000, createdAt := now }] = [] := by
      rw [List.filter_cons, if_neg (by
        simp only [Bool.and_eq_true, decide_eq_true_eq]
        intro habs
        exact absurd habs.1.symm hc), List.filter_nil]
    rw [hnew]
    simp only [List.length_nil, Nat.add_zero]
    calc (List.filter (fun r : Session => r.chatId = c' && r.type = "authenticated")
            (deleteSessionsByType c "authenticated" store).2).length
        ≤ (authRows c' store).length := by
          unfold deleteSessionsByType authRows
          dsimp only
          rw [List.filter_filter]
          exact length_filter_le_of_imp _ _ store
            (by intro a ha; rw [Bool.and_eq_true] at ha; exact ha.1)
      _ ≤ 1 := h c'

lemma authenticateUser_success_eq (c pw : String) (cfg : AuthConfig)
    (now : Nat) (store : Store)
    (hpw : pw = cfg.botPassword) (hne : cfg.botPassword ≠ "") :
    authenticateUser c pw cfg now store =
      (.success,
        (createAuthenticatedSession c now (clearFailedAttempts c store)).2) := by
  unfold authenticateUser
  rw [if_neg hne, if_neg (by rw [hpw]; simp)]

lemma authInv_isUserBlocked (c : String) (cfg : AuthConfig) (now : Nat)
    (store : Store) (h : authInv store) :
    authInv (isUserBlocked c cfg now store).2 := by
  unfold isUserBlocked
  cases hg : getSession store c (some "auth_attempts") now with
  | none => exact h
  | some s =>
    dsimp only
    split
    · split
      · exact h
      · exact authInv_deleteSessionsByType c "auth_attempts" store h
    · exact h

lemma authInv_logoutUser (c : String) (now : Nat) (store : Store)
    (h : authInv store) : authInv (logoutUser c now store).2 := by
  unfold logoutUser
  cases hg : getSession store c (some "authenticated") now with
  | none => exact h
  | some s =>
    dsimp only
    split
    · exact authInv_deleteSession s.id store h
    · exact h

lemma authInv_authenticateUser (c pw : String) (cfg : AuthConfig)
    (now : Nat) (store : Store) (h : authInv store) :
    authInv (authenticateUser c pw cfg now store).2 := by
  unfold authenticateUser
  by_cases hcfg : cfg.botPassword = ""
  · rw [if_pos hcfg]
    exact h
  · rw [if_neg hcfg]
    by_cases hp : pw ≠ cfg.botPassword
    · rw [if_pos hp]
      exact authInv_trackFailedAttempt c cfg now store h
    · rw [if_neg hp]
      dsimp only
      exact authInv_createAuthenticatedSession c now _
        (authInv_deleteSessionsByType c "auth_attempts" store h)

lemma validAuthCount_le_one (c : String) (now : Nat) (store : Store)
    (h : authInv store) : validAuthCount c now store ≤ 1 := by
  unfold validAuthCount
  refine Nat.le_trans ?_ (h c)
  unfold authRows
  exact length_filter_le_of_imp _ _ store
    (by
      intro a ha
      rw [Bool.and_eq_true] at ha
      exact ha.1)

/-- Claim C5: a successful authenticate deletes the chat's
`auth_attempts` record and every prior `authenticated` session, and
leaves exactly one fresh `authenticated` session whose expiry was
extended to the 24-hour window; moreover at most one `authenticated`-kind
session per chat (hence at most one valid one) is an invariant preserved
by every operation of the store, the session manager and the
authentication engine. -/
theorem authenticate_success_unique_authenticated :
    (∀ (c pw : String) (cfg : AuthConfig) (now : Nat) (store : Store),
      pw = cfg.botPassword → cfg.botPassword ≠ "" →
      (authenticateUser c pw cfg now store).1 = .success ∧
      List.filter (fun r => r.chatId = c && r.type = "auth_attempts")
        (authenticateUser c pw cfg now store).2 = [] ∧
      authRows c (authenticateUser c pw cfg now store).2 =
        [{ id := c ++ "_" ++ "authenticated" ++ "_" ++ toString now,
           chatId := c, type := "authenticated", state := "",
           data := [("authenticated", some (.bool true)),
                    ("loginTime", some (.num now))],
           expires := now + 24 * 60 * 60 * 1000, createdAt := now }]) ∧
    (∀ store : Store, authInv store →
      (∀ c now, validAuthCount c now store ≤ 1) ∧
      (∀ c ty d now, ty ≠ "authenticated" →
        authInv (createSession c ty d now store).2) ∧
      (∀ sid u, authInv (updateSession sid u store).2) ∧
      (∀ sid, authInv (deleteSession sid store).2) ∧
      (∀ c ty, authInv (deleteSessionsByType c ty store).2) ∧
      (∀ sid m now, authInv (extendSession sid m now store).2) ∧
      (∀ c cfg now, authInv (trackFailedAttempt c cfg now store)) ∧
      (∀ c now, authInv (createAuthenticatedSession c now store).2) ∧
      (∀ c pw cfg now, authInv (authenticateUser c pw cfg now store).2) ∧
      (∀ c cfg now, authInv (isUserBlocked c cfg now store).2) ∧
      (∀ c now, authInv (logoutUser c now store).2)) := by
  constructor
  · intro c pw cfg now store hpw hne
    refine ⟨?_, ?_, ?_⟩
    · rw [authenticateUser_success_eq c pw cfg now store hpw hne]
    · rw [List.filter_eq_nil_iff]
      intro r hr habs
      rw [Bool.and_eq_true, decide_eq_true_eq, decide_eq_true_eq] at habs
      exact authenticateUser_success_no_attempts c pw cfg now store hpw hne
        r hr habs.1 habs.2
    · rw [authenticateUser_success_eq c pw cfg now store hpw hne]
      exact authRows_createAuthenticatedSession c now (clearFailedAttempts c store)
  · intro store h
    exact ⟨fun c now => validAuthCount_le_one c now store h,
      fun c ty d now hty => authInv_createSession c ty d now store hty h,
      fun sid u => authInv_updateSession sid u store h,
      fun sid => authInv_deleteSession sid store h,
      fun c ty => authInv_deleteSessionsByType c ty store h,
      fun sid m now => authInv_extendSession sid m now store h,
      fun c cfg now => authInv_trackFailedAttempt c cfg now store h,
      fun c now => authInv_createAuthenticatedSession c now store h,
      fun c pw cfg now => authInv_authenticateUser c pw cfg now store h,
      fun c cfg now => authInv_isUserBlocked c cfg now store h,
      fun c now => authInv_logoutUser c now store h⟩

/-- Claim C5 witness: a successful login at time 7 from a store holding a
stale attempts record and an old authenticated session leaves no
`auth_attempts` row and exactly the fresh 24-hour `authenticated` row. -/
theorem authenticate_success_unique_authenticated_witness :
    List.filter (fun r => r.chatId = "c" && r.type = "auth_attempts")
      (authenticateUser "c" "pw"
        { botPassword := "pw", maxAttempts := 3, timeoutMinutes := 30 } 7
        [{ id := "c_auth_attempts_1", chatId := "c", type := "auth_attempts",
           state := "", data := [("attempts", some (.num 2))],
           expires := 900001, createdAt := 1 },
         { id := "c_authenticated_2", chatId := "c", type := "authenticated",
           state := "", data := [("authenticated", some (.bool true))],
           expires := 86400002, createdAt := 2 }]).2 = [] ∧
    authRows "c"
      (authenticateUser "c" "pw"
        { botPassword := "pw", maxAttempts := 3, timeoutMinutes := 30 } 7
        [{ id := "c_auth_attempts_1", chatId := "c", type := "auth_attempts",
           state := "", data := [("attempts", some (.num 2))],
           expires := 900001, createdAt := 1 },
         { id := "c_authenticated_2", chatId := "c", type := "authenticated",
           state := "", data := [("authenticated", some (.bool true))],
           expires := 86400002, createdAt := 2 }]).2 =
      [{ id := "c" ++ "_" ++ "authenticated" ++ "_" ++ toString 7,
         chatId := "c", type := "authenticated", state := "",
         data := [("authenticated", some (.bool true)),
                  ("loginTime", some (.num 7))],
         expires := 7 + 24 * 60 * 60 * 1000, createdAt := 7 }] := by
  have h := authenticate_success_unique_authenticated.1 "c" "pw"
    { botPassword := "pw", maxAttempts := 3, timeoutMinutes := 30 } 7
    [{ id := "c_auth_attempts_1", chatId := "c", type := "auth_attempts",
       state := "", data := [("attempts", some (.num 2))],
       expires := 900001, createdAt := 1 },
     { id := "c_authenticated_2", chatId := "c", type := "authenticated",
       state := "", data := [("authenticated", some (.bool true))],
       expires := 86400002, createdAt := 2 }] rfl (by decide)
  exact ⟨h.2.1, h.2.2⟩
